import Mathlib

/-!
Shallow embedding of the core of the T-Display web editor (src/script.js):
the RGB565/RGB888 color codec, the canvas hit-testing, the WebSocket
connection manager (as an explicit state machine over its instance fields
plus the set of pending reconnect timers), and the live-data pipeline
(enabled-cell filtering and the sliding-window update-rate estimator).

JavaScript numbers are modelled as `Nat`/`Int`/`ℚ` (all values involved are
small, so 32-bit overflow in the bitwise operators never matters); JS
`parseInt` is modelled as an `Option`-returning parser together with the
`|| 0` fallback idiom used throughout the source; truthiness of the
dynamically-typed `enabled` field is modelled over a small JS-value type.
-/

namespace TDisplay

/-! ## Color codec (script.js lines 8-45) -/

/-- Red channel of `rgb565ToRgb888`:
`r = ((rgb565 >> 11) & 0x1F) << 3; r = r + (r >> 5)`. -/
def r888 (rgb565 : Nat) : Nat :=
  let r := ((rgb565 >>> 11) &&& 0x1F) <<< 3
  r + (r >>> 5)

/-- Green channel of `rgb565ToRgb888`:
`g = ((rgb565 >> 5) & 0x3F) << 2; g = g + (g >> 6)`. -/
def g888 (rgb565 : Nat) : Nat :=
  let g := ((rgb565 >>> 5) &&& 0x3F) <<< 2
  g + (g >>> 6)

/-- Blue channel of `rgb565ToRgb888`:
`b = (rgb565 & 0x1F) << 3; b = b + (b >> 5)`. -/
def b888 (rgb565 : Nat) : Nat :=
  let b := (rgb565 &&& 0x1F) <<< 3
  b + (b >>> 5)

/-- The function `rgb565ToRgb888` (script.js:11-22): expand a 16-bit packed
5-6-5 color to a 24-bit packed 8-8-8 color, with the rounding corrections. -/
def rgb565ToRgb888 (rgb565 : Nat) : Nat :=
  (r888 rgb565 <<< 16) ||| (g888 rgb565 <<< 8) ||| b888 rgb565

/-- Value of a hexadecimal digit character, or `none` for a non-hex-digit. -/
def hexDigitVal (c : Char) : Option Nat :=
  if '0' ≤ c ∧ c ≤ '9' then some (c.toNat - 48)
  else if 'a' ≤ c ∧ c ≤ 'f' then some (c.toNat - 87)
  else if 'A' ≤ c ∧ c ≤ 'F' then some (c.toNat - 55)
  else none

/-- Characters that JS `parseInt` skips as leading whitespace. -/
def jsWhitespace (c : Char) : Bool :=
  c = ' ' ∨ c = '\t' ∨ c = '\n' ∨ c = '\r'

/-- Accumulate a list of hex digit characters into a number (radix 16). -/
def hexDigitsVal (l : List Char) : Nat :=
  l.foldl (fun a c => a * 16 + (hexDigitVal c).getD 0) 0

/-- JS `parseInt(s, 16)`: skip leading whitespace and an optional `0x`/`0X`
prefix, then read the longest leading run of hex digits; `none` models the
`NaN` result when that run is empty.  (A leading sign, which JS also accepts,
never occurs in the two-character color substrings this is applied to.) -/
def parseIntSixteen (s : String) : Option Nat :=
  let l := s.toList.dropWhile jsWhitespace
  let l := match l with
    | '0' :: 'x' :: rest => rest
    | '0' :: 'X' :: rest => rest
    | _ => l
  let ds := l.takeWhile (fun c => (hexDigitVal c).isSome)
  if ds = [] then none else some (hexDigitsVal ds)

/-- JS `str.substring(a, b)` for `a ≤ b`: the characters at indices
`a, ..., b-1`. -/
def substring (s : String) (a b : Nat) : String :=
  String.mk ((s.toList.drop a).take (b - a))

/-- JS `str.replace('#', '')`: remove the first occurrence of `'#'`
(string-valued `replace` only replaces the first match). -/
def replaceFirstHash (s : String) : String :=
  match s.toList.span (fun c => c ≠ '#') with
  | (pre, _ :: post) => String.mk (pre ++ post)
  | (pre, []) => String.mk pre

/-- Packed 16-bit value computed by `rgb888ToRgb565` (script.js:27-45) before
it is formatted as a hex string: parse the three channel substrings of the
(`#`-stripped) hex color and pack 5-6-5.  A `NaN` channel (`none`) coerces to
0 under the JS bitwise operators, hence `getD 0`. -/
def rgb888ToRgb565Val (hexColor : String) : Nat :=
  let hex := replaceFirstHash hexColor
  let r := (parseIntSixteen (substring hex 0 2)).getD 0
  let g := (parseIntSixteen (substring hex 2 4)).getD 0
  let b := (parseIntSixteen (substring hex 4 6)).getD 0
  let r5 := (r >>> 3) &&& 0x1F
  let g6 := (g >>> 2) &&& 0x3F
  let b5 := (b >>> 3) &&& 0x1F
  (r5 <<< 11) ||| (g6 <<< 5) ||| b5

/-- Lowercase hex digit character for a value below 16 (as produced by JS
`Number.prototype.toString(16)`). -/
def hexChar (n : Nat) : Char :=
  if n < 10 then Char.ofNat (48 + n) else Char.ofNat (87 + n)

/-- Hex digit list of `n` (most significant first), as in JS
`n.toString(16)`. -/
def natToHexDigits (n : Nat) (fuel : Nat) : List Char :=
  match fuel with
  | 0 => []
  | fuel + 1 =>
    if n < 16 then [hexChar n]
    else natToHexDigits (n / 16) fuel ++ [hexChar (n % 16)]

/-- JS `n.toString(16)` for a natural number. -/
def natToHexString (n : Nat) : String :=
  String.mk (natToHexDigits n (n + 1))

/-- JS `str.padStart(len, c)`. -/
def padStart (s : String) (len : Nat) (c : Char) : String :=
  String.mk (List.replicate (len - s.toList.length) c ++ s.toList)

/-- The function `rgb888ToRgb565` (script.js:27-45): hex color string in,
`0x`-prefixed 4-digit packed hex string out. -/
def rgb888ToRgb565 (hexColor : String) : String :=
  "0x" ++ padStart (natToHexString (rgb888ToRgb565Val hexColor)) 4 '0'

/-! ## Claims C2 and C10: color codec properties -/

/-- Red channel bound: the rounding correction cannot push red past 255. -/
theorem r888_le (v : Nat) : r888 v ≤ 255 := by
  unfold r888
  simp only [Nat.shiftLeft_eq, Nat.shiftRight_eq_div_pow]
  have h : v / 2 ^ 11 &&& 0x1F ≤ 0x1F := Nat.and_le_right
  omega

/-- Green channel bound: the rounding correction cannot push green past 255. -/
theorem g888_le (v : Nat) : g888 v ≤ 255 := by
  unfold g888
  simp only [Nat.shiftLeft_eq, Nat.shiftRight_eq_div_pow]
  have h : v / 2 ^ 5 &&& 0x3F ≤ 0x3F := Nat.and_le_right
  omega

/-- Blue channel bound: the rounding correction cannot push blue past 255. -/
theorem b888_le (v : Nat) : b888 v ≤ 255 := by
  have h : v &&& 0x1F ≤ 0x1F := Nat.and_le_right
  unfold b888
  simp only [Nat.shiftLeft_eq, Nat.shiftRight_eq_div_pow]
  omega

/-- C2: for each of the five extreme 24-bit colors, encoding the hex string
with `rgb888ToRgb565` and decoding the resulting packed value with
`rgb565ToRgb888` reproduces all three original channels exactly. -/
theorem color_roundtrip_extremes :
    (r888 (rgb888ToRgb565Val "#ff0000") = 255 ∧
     g888 (rgb888ToRgb565Val "#ff0000") = 0 ∧
     b888 (rgb888ToRgb565Val "#ff0000") = 0) ∧
    (r888 (rgb888ToRgb565Val "#00ff00") = 0 ∧
     g888 (rgb888ToRgb565Val "#00ff00") = 255 ∧
     b888 (rgb888ToRgb565Val "#00ff00") = 0) ∧
    (r888 (rgb888ToRgb565Val "#0000ff") = 0 ∧
     g888 (rgb888ToRgb565Val "#0000ff") = 0 ∧
     b888 (rgb888ToRgb565Val "#0000ff") = 255) ∧
    (r888 (rgb888ToRgb565Val "#ffffff") = 255 ∧
     g888 (rgb888ToRgb565Val "#ffffff") = 255 ∧
     b888 (rgb888ToRgb565Val "#ffffff") = 255) ∧
    (r888 (rgb888ToRgb565Val "#000000") = 0 ∧
     g888 (rgb888ToRgb565Val "#000000") = 0 ∧
     b888 (rgb888ToRgb565Val "#000000") = 0) ∧
    rgb565ToRgb888 (rgb888ToRgb565Val "#ff0000") = 0xff0000 ∧
    rgb565ToRgb888 (rgb888ToRgb565Val "#00ff00") = 0x00ff00 ∧
    rgb565ToRgb888 (rgb888ToRgb565Val "#0000ff") = 0x0000ff ∧
    rgb565ToRgb888 (rgb888ToRgb565Val "#ffffff") = 0xffffff ∧
    rgb565ToRgb888 (rgb888ToRgb565Val "#000000") = 0x000000 ∧
    rgb888ToRgb565 "#ff0000" = "0xf800" ∧
    rgb888ToRgb565 "#00ff00" = "0x07e0" ∧
    rgb888ToRgb565 "#0000ff" = "0x001f" ∧
    rgb888ToRgb565 "#ffffff" = "0xffff" ∧
    rgb888ToRgb565 "#000000" = "0x0000" := by
  decide

/-- C10: for every 16-bit input, the three decoded channels are at most 255
(the rounding corrections never overshoot) and the packed 888 result is
strictly below 2^24 (non-negativity is inherent to the `Nat` embedding). -/
theorem rgb565ToRgb888_in_range (v : Nat) (_hv : v < 65536) :
    r888 v ≤ 255 ∧ g888 v ≤ 255 ∧ b888 v ≤ 255 ∧ rgb565ToRgb888 v < 2 ^ 24 := by
  refine ⟨r888_le v, g888_le v, b888_le v, ?_⟩
  unfold rgb565ToRgb888
  apply Nat.or_lt_two_pow
  · apply Nat.or_lt_two_pow
    · have := r888_le v
      calc r888 v <<< 16 = r888 v * 2 ^ 16 := Nat.shiftLeft_eq _ _
        _ ≤ 255 * 2 ^ 16 := by exact Nat.mul_le_mul_right _ this
        _ < 2 ^ 24 := by norm_num
    · have := g888_le v
      calc g888 v <<< 8 = g888 v * 2 ^ 8 := Nat.shiftLeft_eq _ _
        _ ≤ 255 * 2 ^ 8 := by exact Nat.mul_le_mul_right _ this
        _ < 2 ^ 24 := by norm_num
  · have := b888_le v
    omega

/-- Witness for C10 at the concrete input 0xFFFF. -/
theorem rgb565ToRgb888_in_range_witness :
    r888 0xFFFF ≤ 255 ∧ g888 0xFFFF ≤ 255 ∧ b888 0xFFFF ≤ 255 ∧
      rgb565ToRgb888 0xFFFF < 2 ^ 24 :=
  rgb565ToRgb888_in_range 0xFFFF (by decide)

/-! ## JS values, `parseInt(_, 10)` and the `|| 0` idiom -/

/-- Small model of a dynamically-typed JS value, as needed for the
boolean-like `enabled` flag of a live cell. -/
inductive JSVal where
  | undef
  | null
  | bool (b : Bool)
  | num (n : Int)
  | str (s : String)
  deriving DecidableEq, Repr

/-- JS truthiness: `undefined`, `null`, `false`, `0` and `""` are falsy,
everything else (in this value model) is truthy. -/
def truthy : JSVal → Bool
  | .undef => false
  | .null => false
  | .bool b => b
  | .num n => n ≠ 0
  | .str s => s ≠ ""

/-- Value of a list of decimal digit characters (most significant first). -/
def decDigitsVal (l : List Char) : Nat :=
  l.foldl (fun a c => a * 10 + (c.toNat - 48)) 0

/-- JS `parseInt(s, 10)`: skip leading whitespace, read an optional sign and
then the longest leading run of decimal digits; `none` models the `NaN`
result when that run is empty. -/
def parseIntTen (s : String) : Option Int :=
  match s.toList.dropWhile jsWhitespace with
  | '-' :: rest =>
    if rest.takeWhile Char.isDigit = [] then none
    else some (-(decDigitsVal (rest.takeWhile Char.isDigit) : Int))
  | '+' :: rest =>
    if rest.takeWhile Char.isDigit = [] then none
    else some (decDigitsVal (rest.takeWhile Char.isDigit) : Int)
  | l =>
    if l.takeWhile Char.isDigit = [] then none
    else some (decDigitsVal (l.takeWhile Char.isDigit) : Int)

/-- The `parseInt(field, 10) || 0` idiom used for every geometry field:
`NaN` (and the falsy result 0, which `|| 0` maps to 0 as well) coerces
to 0. -/
def parsedGeom (s : String) : Int :=
  match parseIntTen s with
  | none => 0
  | some v => if v = 0 then 0 else v

/-! ## Cells and hit-testing (script.js lines 111-170) -/

/-- A raw cell record as consumed by the canvas code: geometry and color
fields arrive as (possibly malformed) strings, `enabled` and `data1_valid`
as arbitrary JS values, and the live display value as an optional
preformatted string or an optional rational number. -/
structure Cell where
  name : String := ""
  posx : String := ""
  posy : String := ""
  sizex : String := ""
  sizey : String := ""
  bg_color : String := ""
  font1_color : String := ""
  enabled : JSVal := .undef
  str_value : Option String := none
  value : Option ℚ := none
  decimalPlaces : String := ""
  data1_valid : JSVal := .undef
  deriving DecidableEq, Repr

/-- The hit predicate of `findCellAtPosition` (script.js:163-169): inclusive
bounds on the parsed geometry. -/
def insideCell (x y : Int) (cell : Cell) : Bool :=
  let px := parsedGeom cell.posx
  let py := parsedGeom cell.posy
  let w := parsedGeom cell.sizex
  let h := parsedGeom cell.sizey
  x ≥ px ∧ x ≤ px + w ∧ y ≥ py ∧ y ≤ py + h

/-- JS `Array.prototype.findIndex`: index of the first element satisfying
the predicate, `-1` when none does. -/
def jsFindIndex (p : α → Bool) : List α → Int
  | [] => -1
  | c :: cs =>
    if p c then 0
    else if jsFindIndex p cs = -1 then -1 else jsFindIndex p cs + 1

/-- The function `findCellAtPosition` (script.js:162-170). -/
def findCellAtPosition (x y : Int) (cells : List Cell) : Int :=
  jsFindIndex (insideCell x y) cells

/-- Result of JS `findIndex` is either `-1` or a non-negative index. -/
theorem jsFindIndex_nonneg_or (p : α → Bool) (l : List α) :
    jsFindIndex p l = -1 ∨ 0 ≤ jsFindIndex p l := by
  induction l with
  | nil => left; rfl
  | cons c cs ih =>
    by_cases hc : p c
    · right; simp [jsFindIndex, hc]
    · rcases ih with h | h
      · left; simp [jsFindIndex, hc, h]
      · by_cases hr : jsFindIndex p cs = -1
        · left; simp [jsFindIndex, hc, hr]
        · right; simp only [jsFindIndex, hc, if_false, if_neg hr]; omega

/-- First-match specification of JS `findIndex`, not-found case: the result
is `-1` exactly when no element satisfies the predicate. -/
theorem jsFindIndex_eq_neg_one_iff (p : α → Bool) (l : List α) :
    jsFindIndex p l = -1 ↔ ∀ c ∈ l, p c = false := by
  induction l with
  | nil => exact ⟨fun _ c hc => absurd hc (List.not_mem_nil c), fun _ => rfl⟩
  | cons c cs ih =>
    simp only [jsFindIndex, List.mem_cons]
    by_cases hc : p c
    · simp only [hc, if_true]
      constructor
      · intro h; exact absurd h (by decide)
      · intro hall; exact absurd (hall c (Or.inl rfl)) (by simp [hc])
    · simp only [hc, if_false]
      by_cases hr : jsFindIndex p cs = -1
      · rw [if_pos hr]
        constructor
        · intro _ x hx
          rcases hx with rfl | hx
          · exact Bool.eq_false_iff.mpr hc
          · exact (ih.mp hr) x hx
        · intro _; rfl
      · rw [if_neg hr]
        constructor
        · intro habs
          exfalso
          rcases jsFindIndex_nonneg_or p cs with h | h
          · exact hr h
          · omega
        · intro hall
          exact absurd (ih.mpr fun x hx => hall x (Or.inr hx)) hr

/-- Bridge from JS `findIndex` to `List.findIdx?`, not-found direction. -/
theorem jsFindIndex_of_findIdx?_none (p : α → Bool) (l : List α)
    (h : l.findIdx? p = none) : jsFindIndex p l = -1 := by
  rw [jsFindIndex_eq_neg_one_iff]
  exact fun c hc => (List.findIdx?_eq_none_iff.mp h) c hc

/-- Bridge from JS `findIndex` to `List.findIdx?`, found direction. -/
theorem jsFindIndex_of_findIdx?_some (p : α → Bool) (l : List α) (i : Nat)
    (h : l.findIdx? p = some i) : jsFindIndex p l = (i : Int) := by
  induction l generalizing i with
  | nil => simp [List.findIdx?_nil] at h
  | cons c cs ih =>
    rw [List.findIdx?_cons] at h
    by_cases hc : p c
    · rw [if_pos hc] at h
      obtain rfl : 0 = i := by simpa using h
      simp [jsFindIndex, hc]
    · rw [if_neg hc, List.findIdx?_succ] at h
      cases hcs : cs.findIdx? p with
      | none => rw [hcs] at h; simp at h
      | some k =>
        rw [hcs] at h
        simp only [Option.map_some'] at h
        obtain rfl : k + 1 = i := by simpa using h
        have hk := ih k hcs
        simp only [jsFindIndex, hc, if_false, hk]
        rw [if_neg (show ¬((k : Int) = -1) by omega)]
        push_cast
        ring

/-! ## Claim C5: hit-testing returns the first (lowest-index) hit -/

/-- C5: `findCellAtPosition` returns the smallest index whose cell contains
the point under inclusive bounds on the parsed (default-0) geometry, and `-1`
when no cell contains the point; the hit predicate is exactly
`px ≤ x ≤ px + w` and `py ≤ y ≤ py + h`. -/
theorem findCellAtPosition_spec (x y : Int) (cells : List Cell) :
    (∀ c : Cell, insideCell x y c = true ↔
       (parsedGeom c.posx ≤ x ∧ x ≤ parsedGeom c.posx + parsedGeom c.sizex ∧
        parsedGeom c.posy ≤ y ∧ y ≤ parsedGeom c.posy + parsedGeom c.sizey)) ∧
    (findCellAtPosition x y cells = -1 ↔ ∀ c ∈ cells, insideCell x y c = false) ∧
    (∀ i : Nat, (hi : i < cells.length) →
       (findCellAtPosition x y cells = (i : Int) ↔
         insideCell x y (cells.get ⟨i, hi⟩) = true ∧
           ∀ j : Nat, (hj : j < cells.length) → j < i →
             insideCell x y (cells.get ⟨j, hj⟩) = false)) := by
  refine ⟨?_, jsFindIndex_eq_neg_one_iff _ _, ?_⟩
  · intro c
    simp [insideCell, ge_iff_le, and_assoc]
  · intro i hi
    unfold findCellAtPosition
    cases hfd : cells.findIdx? (insideCell x y) with
    | none =>
      rw [jsFindIndex_of_findIdx?_none _ _ hfd]
      constructor
      · intro h; exfalso; omega
      · rintro ⟨hp, -⟩
        exfalso
        have hnone := List.findIdx?_eq_none_iff.mp hfd
        have hmem : cells.get ⟨i, hi⟩ ∈ cells := cells.get_mem i hi
        have hf := hnone _ hmem
        simp only [List.get_eq_getElem] at hp hf
        rw [hp] at hf
        exact Bool.noConfusion hf
    | some k =>
      rw [jsFindIndex_of_findIdx?_some _ _ _ hfd]
      obtain ⟨hklen, hpk, hall⟩ := List.findIdx?_eq_some_iff_getElem.mp hfd
      constructor
      · intro h
        have hki : k = i := by omega
        subst hki
        refine ⟨by simpa using hpk, ?_⟩
        intro j hj hji
        have := hall j hji
        simpa using this
      · rintro ⟨hp, hmin⟩
        have hki : k = i := by
          by_contra hne
          rcases Nat.lt_or_ge k i with hlt | hge
          · exact absurd hpk (by simpa using hmin k hklen hlt)
          · have hik : i < k := Nat.lt_of_le_of_ne hge (Ne.symm hne)
            exact absurd hp (by simpa using hall i hik)
        simp [hki]

/-- Two overlapping demo cells, the point (5,5) lying inside both. -/
def demoCells : List Cell :=
  [{ posx := "0", posy := "0", sizex := "10", sizey := "10" },
   { posx := "2", posy := "2", sizex := "10", sizey := "10" }]

/-- Witness for C5: on two overlapping cells both containing (5,5), the hit
test returns the lowest index 0. -/
theorem findCellAtPosition_spec_witness : findCellAtPosition 5 5 demoCells = 0 :=
  ((findCellAtPosition_spec 5 5 demoCells).2.2 0 (by decide)).mpr
    ⟨by decide, fun j _ hj0 => absurd hj0 (Nat.not_lt_zero j)⟩

/-! ## Claim C7: geometry parsing — totality holds, non-negativity fails -/

/-- Positivity of a successful parse whose input does not start (after
whitespace) with a minus sign. -/
theorem parseIntTen_nonneg (s : String) (v : Int)
    (hh : (s.toList.dropWhile jsWhitespace).head? ≠ some '-')
    (hp : parseIntTen s = some v) : 0 ≤ v := by
  unfold parseIntTen at hp
  split at hp
  · rename_i rest heq
    rw [heq] at hh
    simp at hh
  · split at hp
    · exact absurd hp (by simp)
    · simp only [Option.some.injEq] at hp
      exact hp ▸ Int.natCast_nonneg _
  · split at hp
    · exact absurd hp (by simp)
    · simp only [Option.some.injEq] at hp
      exact hp ▸ Int.natCast_nonneg _

/-- C7 counterexample: the geometry string "-5" parses to the negative value
-5 under the `parseInt(_, 10) || 0` idiom, and that negative geometry flows
into hit-testing: a cell whose parsed rectangle starts at (-5,-5) with size 4
contains the point (-3,-3). -/
theorem parsedGeom_negative_cex :
    parsedGeom "-5" = -5 ∧ parsedGeom "-5" < 0 ∧
      findCellAtPosition (-3) (-3)
        [{ posx := "-5", posy := "-5", sizex := "4", sizey := "4" }] = 0 := by
  decide

/-- C7 amended: geometry parsing is total — malformed input (no parseable
leading integer) coerces to 0, never an exception — and the parsed value is
non-negative whenever the first non-whitespace character is not a minus
sign; it is not always non-negative (see the counterexample). -/
theorem parsedGeom_total_and_default (s : String) :
    (parseIntTen s = none → parsedGeom s = 0) ∧
    ((s.toList.dropWhile jsWhitespace).head? ≠ some '-' → 0 ≤ parsedGeom s) := by
  constructor
  · intro h
    simp [parsedGeom, h]
  · intro hh
    unfold parsedGeom
    cases hp : parseIntTen s with
    | none => simp
    | some v =>
      by_cases hv : v = 0
      · simp [hv]
      · simp only [if_neg hv]
        exact parseIntTen_nonneg s v hh hp

/-- Witness for C7 (amended): a malformed field coerces to 0 and an unsigned
numeric field parses to a non-negative value. -/
theorem parsedGeom_total_and_default_witness :
    parsedGeom "abc" = 0 ∧ 0 ≤ parsedGeom "12" :=
  ⟨(parsedGeom_total_and_default "abc").1 (by decide),
   (parsedGeom_total_and_default "12").2 (by decide)⟩

/-! ## Claim C6: update-rate estimator (script.js lines 296, 379-382, 482-496) -/

/-- Capacity of the update-rate window (`updateRateWindowSize`,
script.js:296). -/
def updateRateWindowSize : Nat := 10

/-- Window maintenance from `handleLiveData` (script.js:379-382): push the
arrival time at the back, then `shift()` the oldest element off the front
when the capacity is exceeded. -/
def pushTimestamp (w : List Int) (t : Int) : List Int :=
  if updateRateWindowSize < (w ++ [t]).length then (w ++ [t]).tail else w ++ [t]

/-- The function `calculateUpdateRate` (script.js:482-496): 0 with fewer than
two samples or a zero time span, otherwise
`(length - 1) / (window[length-1] - window[0]) * 1000` messages per second. -/
def calculateUpdateRate (w : List Int) : ℚ :=
  if w.length < 2 then 0
  else
    let timeSpan : Int := w.getLast?.getD 0 - w.head?.getD 0
    let messageCount : Nat := w.length - 1
    if timeSpan = 0 then 0
    else (messageCount : ℚ) / (timeSpan : ℚ) * 1000

/-- C6: the update rate is 0 for fewer than two samples and for a zero time
span, equals `(length - 1) / (newest - oldest) * 1000` otherwise, and ten
timestamps spaced 100 ms apart (pushed through the capacity-10 window
maintenance) yield exactly 10 Hz. -/
theorem calculateUpdateRate_spec :
    (∀ w : List Int, w.length < 2 → calculateUpdateRate w = 0) ∧
    (∀ w : List Int, w.getLast?.getD 0 - w.head?.getD 0 = 0 →
      calculateUpdateRate w = 0) ∧
    (∀ w : List Int, 2 ≤ w.length → w.getLast?.getD 0 - w.head?.getD 0 ≠ 0 →
      calculateUpdateRate w =
        ((w.length - 1 : Nat) : ℚ) /
          ((w.getLast?.getD 0 - w.head?.getD 0 : Int) : ℚ) * 1000) ∧
    List.foldl pushTimestamp []
        [0, 100, 200, 300, 400, 500, 600, 700, 800, 900] =
      [0, 100, 200, 300, 400, 500, 600, 700, 800, 900] ∧
    calculateUpdateRate [0, 100, 200, 300, 400, 500, 600, 700, 800, 900] = 10 := by
  refine ⟨?_, ?_, ?_, by decide, by norm_num [calculateUpdateRate, List.getLast?]⟩
  · intro w h
    simp [calculateUpdateRate, h]
  · intro w h
    unfold calculateUpdateRate
    split
    · rfl
    · simp [h]
  · intro w h1 h2
    unfold calculateUpdateRate
    rw [if_neg (by omega)]
    simp only [if_neg h2]

/-- Witness for C6: a single-sample window and a zero-span window give 0; the
window [0, 100] gives 10 Hz. -/
theorem calculateUpdateRate_spec_witness :
    calculateUpdateRate [5] = 0 ∧ calculateUpdateRate [3, 3] = 0 ∧
      calculateUpdateRate [0, 100] = 10 :=
  ⟨calculateUpdateRate_spec.1 [5] (by decide),
   calculateUpdateRate_spec.2.1 [3, 3] (by decide),
   Eq.trans (calculateUpdateRate_spec.2.2.1 [0, 100] (by decide) (by decide))
     (by norm_num [List.getLast?])⟩

/-! ## WebSocket manager state machine (script.js lines 177-284)

The manager is embedded as an explicit state machine: the instance fields of
`WebSocketManager`, the ready state of the socket it currently holds, the
number of pending (scheduled, not yet fired) reconnect timers, and ghost
logs of the scheduled delays, created sockets and delivered payloads.
Events of the single-threaded page event loop drive the machine.  Callbacks
of a socket the manager has already released (set to `null`) are not
modelled; no claim depends on them. -/

/-- Ready state of the underlying socket object. -/
inductive SockState where
  | connecting
  | opened
  | closed
  deriving DecidableEq, Repr

/-- Reported connection status, first argument of `updateStatus`. -/
inductive ConnStatus where
  | disconnected
  | connecting
  | connected
  | error
  deriving DecidableEq, Repr

/-- Decoded live-data message: `cells` is `some` exactly when the decoded
value carries an array-typed `cells` field (script.js:356). -/
structure LiveData where
  cells : Option (List Cell)
  deriving DecidableEq, Repr

/-- State of a `WebSocketManager` instance (script.js:178-188) plus the
event-loop resources it owns.  `status`/`statusMsg` hold the latest
`updateStatus` report (the page indicator defaults to disconnected);
`pendingReconnects` counts scheduled reconnect timers that have not fired;
`scheduled`, `socketsCreated` and `delivered` are ghost observation logs. -/
structure WSState where
  ws : Option SockState
  reconnectAttempts : Nat
  shouldReconnect : Bool
  hasMessageCallback : Bool
  messageCount : Nat
  lastMessageTime : Option Int
  status : ConnStatus
  statusMsg : String
  pendingReconnects : Nat
  scheduled : List Nat
  socketsCreated : Nat
  delivered : List LiveData
  deriving DecidableEq, Repr

/-- The constant `maxReconnectAttempts` (script.js:181). -/
def maxReconnectAttempts : Nat := 5

/-- The constant `reconnectDelay`, in milliseconds (script.js:182). -/
def reconnectDelay : Nat := 2000

/-- Socket endpoint; abstracts the `window.location`-derived URL string. -/
def wsUrl : String := "ws://host/ws"

/-- `updateStatus` (script.js:271-275): record the latest status report. -/
def updateStatus (s : WSState) (st : ConnStatus) (msg : String) : WSState :=
  { s with status := st, statusMsg := msg }

/-- `connect()` (script.js:190-251): a no-op when the current socket's ready
state is OPEN; otherwise report `connecting`, create a fresh socket (in the
CONNECTING ready state) and set `shouldReconnect`.  The handlers installed
on the new socket are modelled by the events below. -/
def connectCall (s : WSState) : WSState :=
  if s.ws = some SockState.opened then s
  else
    let s := updateStatus s ConnStatus.connecting
      ("Connecting to " ++ wsUrl ++ "...")
    { s with ws := some SockState.connecting,
             shouldReconnect := true,
             socketsCreated := s.socketsCreated + 1 }

/-- `disconnect()` (script.js:253-261): clear the reconnect flag, saturate
the attempt counter, and — when a socket is held — close it, drop the
reference and report `disconnected`. -/
def disconnectCall (s : WSState) : WSState :=
  let s := { s with shouldReconnect := false,
                    reconnectAttempts := maxReconnectAttempts }
  match s.ws with
  | some _ =>
    updateStatus { s with ws := none } ConnStatus.disconnected
      "Manually disconnected"
  | none => s

/-- `onopen` handler body (script.js:206-210). -/
def onopenHandler (s : WSState) : WSState :=
  let s := updateStatus s ConnStatus.connected "Connected - Waiting for data..."
  { s with reconnectAttempts := 0 }

/-- `onmessage` handler body (script.js:212-227): the counter and timestamp
updates precede the `JSON.parse` try block; on decode success the payload is
delivered to the registered callback and the status stays `connected`; on
decode failure only an `error` status is reported.  `result` is the outcome
of `JSON.parse` on the wire text. -/
def onmessageHandler (t : Int) (result : Except String LiveData)
    (s : WSState) : WSState :=
  let s := { s with messageCount := s.messageCount + 1,
                    lastMessageTime := some t }
  match result with
  | Except.ok d =>
    let s := if s.hasMessageCallback then { s with delivered := s.delivered ++ [d] }
             else s
    updateStatus s ConnStatus.connected "Connected - Receiving updates"
  | Except.error e =>
    updateStatus s ConnStatus.error ("Error parsing data: " ++ e)

/-- `onerror` handler body (script.js:229-232). -/
def onerrorHandler (s : WSState) : WSState :=
  updateStatus s ConnStatus.error "Connection error"

/-- `onclose` handler body (script.js:234-246): report `disconnected`, then —
only when auto-reconnect is enabled and the attempt counter is below the
maximum — increment the counter and schedule one reconnect timer with the
fixed delay.  The guard runs at scheduling time; the timer callback itself
is an unconditional `this.connect()`. -/
def oncloseHandler (code : Int) (s : WSState) : WSState :=
  let s := updateStatus s ConnStatus.disconnected
    ("Disconnected (Code: " ++ toString code ++ ")")
  if s.shouldReconnect ∧ s.reconnectAttempts < maxReconnectAttempts then
    { s with reconnectAttempts := s.reconnectAttempts + 1,
             pendingReconnects := s.pendingReconnects + 1,
             scheduled := s.scheduled ++ [reconnectDelay] }
  else s

/-- Events of the single-threaded page event loop: the two user actions, the
socket lifecycle callbacks, and the firing of a pending reconnect timer. -/
inductive Event where
  | connect
  | disconnect
  | sockOpen
  | sockClose (code : Int)
  | sockError
  | message (t : Int) (result : Except String LiveData)
  | reconnectTimer

/-- One event-loop step.  Socket callbacks fire only in the ready states in
which the runtime can deliver them; a reconnect timer fires only while one is
pending, and its callback re-invokes `connect()` unconditionally
(script.js:241-244). -/
def step (s : WSState) : Event → WSState
  | Event.connect => connectCall s
  | Event.disconnect => disconnectCall s
  | Event.sockOpen =>
    if s.ws = some SockState.connecting then
      onopenHandler { s with ws := some SockState.opened }
    else s
  | Event.sockClose code =>
    if s.ws = some SockState.connecting ∨ s.ws = some SockState.opened then
      oncloseHandler code { s with ws := some SockState.closed }
    else s
  | Event.sockError => if s.ws.isSome then onerrorHandler s else s
  | Event.message t r =>
    if s.ws = some SockState.opened then onmessageHandler t r s else s
  | Event.reconnectTimer =>
    if 0 < s.pendingReconnects then
      connectCall { s with pendingReconnects := s.pendingReconnects - 1 }
    else s

/-- Run a list of events from a state. -/
def run (s : WSState) (evs : List Event) : WSState :=
  evs.foldl step s

/-- State right after `new WebSocketManager()` (script.js:178-188), with the
live page's message and status callbacks registered
(`LiveDataManager.initialize`, script.js:299-309). -/
def initState : WSState :=
  { ws := none,
    reconnectAttempts := 0,
    shouldReconnect := false,
    hasMessageCallback := true,
    messageCount := 0,
    lastMessageTime := none,
    status := ConnStatus.disconnected,
    statusMsg := "",
    pendingReconnects := 0,
    scheduled := [],
    socketsCreated := 0,
    delivered := [] }

/-! ## Claim C1: disconnect does not neutralize a pending reconnect -/

/-- C1 counterexample: after connect, open and a close (which scheduled a
reconnect that has not yet fired, a reachable state), calling `disconnect()`
and letting the pending reconnect fire leaves the reported state
`connecting` — the pending timer is not neutralized, contradicting the
claim that the state stays `disconnected`. -/
theorem disconnect_pending_timer_cex :
    (run initState [Event.connect, Event.sockOpen, Event.sockClose 1006]).pendingReconnects = 1 ∧
    (run initState [Event.connect, Event.sockOpen, Event.sockClose 1006]).status
      = ConnStatus.disconnected ∧
    (run initState [Event.connect, Event.sockOpen, Event.sockClose 1006,
        Event.disconnect, Event.reconnectTimer]).status
      = ConnStatus.connecting := by
  refine ⟨by decide, by decide, by decide⟩

/-- C1 amended: from any state with a pending scheduled reconnect,
`disconnect()` followed by the timer firing transitions the reported state
to `connecting` (the timer callback re-invokes `connect()` unconditionally
and the socket is no longer OPEN after disconnect) and re-enables the
reconnect flag; the saturated counter and cleared flag only prevent later
close events from scheduling further reconnects. -/
theorem disconnect_then_timer_reconnects :
    (∀ s : WSState, 0 < s.pendingReconnects →
      (step (step s Event.disconnect) Event.reconnectTimer).status
          = ConnStatus.connecting ∧
      (step (step s Event.disconnect) Event.reconnectTimer).shouldReconnect
          = true) ∧
    (∀ (s : WSState) (code : Int), s.shouldReconnect = false →
      (oncloseHandler code s).pendingReconnects = s.pendingReconnects ∧
      (oncloseHandler code s).reconnectAttempts = s.reconnectAttempts) := by
  constructor
  · intro s hp
    cases hws : s.ws with
    | none =>
      simp [step, disconnectCall, connectCall, updateStatus, hws, hp]
    | some st =>
      simp [step, disconnectCall, connectCall, updateStatus, hws, hp]
  · intro s code hsr
    simp [oncloseHandler, updateStatus, hsr]

/-- Witness for C1 (amended), at the reachable state with one pending
reconnect used in the counterexample. -/
theorem disconnect_then_timer_reconnects_witness :
    (step (step (run initState [Event.connect, Event.sockOpen, Event.sockClose 1006])
        Event.disconnect) Event.reconnectTimer).status = ConnStatus.connecting ∧
    (oncloseHandler 1000 (disconnectCall initState)).pendingReconnects
        = (disconnectCall initState).pendingReconnects :=
  ⟨(disconnect_then_timer_reconnects.1
      (run initState [Event.connect, Event.sockOpen, Event.sockClose 1006])
      (by decide)).1,
   (disconnect_then_timer_reconnects.2 (disconnectCall initState) 1000
      (by decide)).1⟩

/-! ## Claim C3: reconnect attempt budget of 5 -/

/-- Trace: connect and open once, then six consecutive closes with each
scheduled reconnect firing in between (and the resulting connection attempt
closing again, with no successful open). -/
def sixCloseTrace : List Event :=
  [Event.connect, Event.sockOpen,
   Event.sockClose 1006, Event.reconnectTimer,
   Event.sockClose 1006, Event.reconnectTimer,
   Event.sockClose 1006, Event.reconnectTimer,
   Event.sockClose 1006, Event.reconnectTimer,
   Event.sockClose 1006, Event.reconnectTimer,
   Event.sockClose 1006]

/-- C3: with auto-reconnect enabled, every close below the budget increments
the attempt counter and schedules exactly one reconnect with the fixed
2000 ms delay; at the budget a close schedules nothing and the state stays
`disconnected`; the concrete run of six consecutive closes schedules exactly
five reconnects and ends disconnected with none pending. -/
theorem reconnect_budget_spec :
    (∀ (s : WSState) (code : Int), s.shouldReconnect = true →
      s.reconnectAttempts < maxReconnectAttempts →
      (oncloseHandler code s).reconnectAttempts = s.reconnectAttempts + 1 ∧
      (oncloseHandler code s).pendingReconnects = s.pendingReconnects + 1 ∧
      (oncloseHandler code s).scheduled = s.scheduled ++ [reconnectDelay] ∧
      (oncloseHandler code s).status = ConnStatus.disconnected) ∧
    (∀ (s : WSState) (code : Int), maxReconnectAttempts ≤ s.reconnectAttempts →
      (oncloseHandler code s).reconnectAttempts = s.reconnectAttempts ∧
      (oncloseHandler code s).pendingReconnects = s.pendingReconnects ∧
      (oncloseHandler code s).scheduled = s.scheduled ∧
      (oncloseHandler code s).status = ConnStatus.disconnected) ∧
    ((run initState sixCloseTrace).reconnectAttempts = 5 ∧
     (run initState sixCloseTrace).pendingReconnects = 0 ∧
     (run initState sixCloseTrace).scheduled = [2000, 2000, 2000, 2000, 2000] ∧
     (run initState sixCloseTrace).status = ConnStatus.disconnected) := by
  refine ⟨?_, ?_, by decide, by decide, by decide, by decide⟩
  · intro s code hsr hlt
    simp [oncloseHandler, updateStatus, hsr, hlt]
  · intro s code hge
    have hnlt : ¬ s.reconnectAttempts < maxReconnectAttempts := by omega
    simp [oncloseHandler, updateStatus, hnlt]

/-- Witness for C3, at the reachable just-opened state (attempts 0) and at
the budget-exhausted end state of the six-close run (attempts 5). -/
theorem reconnect_budget_spec_witness :
    (oncloseHandler 1006 (run initState [Event.connect, Event.sockOpen])).pendingReconnects
        = (run initState [Event.connect, Event.sockOpen]).pendingReconnects + 1 ∧
    (oncloseHandler 1006 (run initState sixCloseTrace)).pendingReconnects
        = (run initState sixCloseTrace).pendingReconnects :=
  ⟨(reconnect_budget_spec.1 (run initState [Event.connect, Event.sockOpen]) 1006
      (by decide) (by decide)).2.1,
   (reconnect_budget_spec.2.1 (run initState sixCloseTrace) 1006 (by decide)).2.1⟩

/-! ## Claim C4: connect() is only a no-op on an OPEN socket -/

/-- C4 counterexample: while the manager is in the connecting state, a second
`connect()` call is not a no-op — it creates a second socket, contradicting
the claim of idempotence in the connecting state. -/
theorem connect_while_connecting_cex :
    (run initState [Event.connect]).status = ConnStatus.connecting ∧
    (run initState [Event.connect]).ws = some SockState.connecting ∧
    (run initState [Event.connect]).socketsCreated = 1 ∧
    (run initState [Event.connect, Event.connect]).socketsCreated = 2 := by
  refine ⟨by decide, by decide, by decide, by decide⟩

/-- C4 amended: `connect()` is an idempotent no-op (the whole state, socket
included, is unchanged and no socket is created) exactly when the held
socket is OPEN, i.e. in the connected state; in the connecting state it is
not a no-op: it replaces the in-flight socket with a fresh one, incrementing
the created-socket count, and re-reports `connecting`. -/
theorem connect_noop_only_when_open :
    (∀ s : WSState, s.ws = some SockState.opened → step s Event.connect = s) ∧
    (∀ s : WSState, s.ws = some SockState.connecting →
      (step s Event.connect).socketsCreated = s.socketsCreated + 1 ∧
      (step s Event.connect).ws = some SockState.connecting ∧
      (step s Event.connect).status = ConnStatus.connecting) := by
  constructor
  · intro s h
    simp [step, connectCall, h]
  · intro s h
    simp [step, connectCall, updateStatus, h]

/-- Witness for C4 (amended), at the reachable connected and connecting
states. -/
theorem connect_noop_only_when_open_witness :
    step (run initState [Event.connect, Event.sockOpen]) Event.connect
        = run initState [Event.connect, Event.sockOpen] ∧
    (step (run initState [Event.connect]) Event.connect).socketsCreated
        = (run initState [Event.connect]).socketsCreated + 1 :=
  ⟨connect_noop_only_when_open.1 (run initState [Event.connect, Event.sockOpen])
      (by decide),
   (connect_noop_only_when_open.2 (run initState [Event.connect]) (by decide)).1⟩

/-! ## Claim C9: message counting happens before JSON decoding -/

/-- C9 counterexample: a message whose JSON decode fails still increments the
message counter and records the arrival timestamp (they are updated before
the try block), contradicting the claim that they are updated exactly on
decode success; status becomes `error`, nothing is forwarded, the socket
stays open. -/
theorem message_decode_failure_cex :
    (run initState [Event.connect, Event.sockOpen]).messageCount = 0 ∧
    (run initState [Event.connect, Event.sockOpen,
        Event.message 5 (Except.error "Unexpected token")]).messageCount = 1 ∧
    (run initState [Event.connect, Event.sockOpen,
        Event.message 5 (Except.error "Unexpected token")]).lastMessageTime = some 5 ∧
    (run initState [Event.connect, Event.sockOpen,
        Event.message 5 (Except.error "Unexpected token")]).status = ConnStatus.error ∧
    (run initState [Event.connect, Event.sockOpen,
        Event.message 5 (Except.error "Unexpected token")]).delivered = [] ∧
    (run initState [Event.connect, Event.sockOpen,
        Event.message 5 (Except.error "Unexpected token")]).ws = some SockState.opened := by
  refine ⟨by decide, by decide, by decide, by decide, by decide, by decide⟩

/-- C9 amended: on every inbound message the counter is incremented and the
arrival timestamp recorded regardless of the decode outcome; on success the
payload is forwarded to the registered subscriber and the status is
`connected`; on failure the status is `error` with a descriptive message, no
payload is forwarded, and the socket is untouched. -/
theorem onmessage_spec :
    (∀ (s : WSState) (t : Int) (r : Except String LiveData),
      (onmessageHandler t r s).messageCount = s.messageCount + 1 ∧
      (onmessageHandler t r s).lastMessageTime = some t ∧
      (onmessageHandler t r s).ws = s.ws) ∧
    (∀ (s : WSState) (t : Int) (d : LiveData), s.hasMessageCallback = true →
      (onmessageHandler t (Except.ok d) s).delivered = s.delivered ++ [d] ∧
      (onmessageHandler t (Except.ok d) s).status = ConnStatus.connected) ∧
    (∀ (s : WSState) (t : Int) (e : String),
      (onmessageHandler t (Except.error e) s).delivered = s.delivered ∧
      (onmessageHandler t (Except.error e) s).status = ConnStatus.error ∧
      (onmessageHandler t (Except.error e) s).statusMsg
        = "Error parsing data: " ++ e) := by
  refine ⟨?_, ?_, ?_⟩
  · intro s t r
    cases r with
    | ok d =>
      by_cases hcb : s.hasMessageCallback <;>
        simp [onmessageHandler, updateStatus, hcb]
    | error e =>
      simp [onmessageHandler, updateStatus]
  · intro s t d hcb
    simp [onmessageHandler, updateStatus, hcb]
  · intro s t e
    simp [onmessageHandler, updateStatus]

/-- Witness for C9 (amended), delivering one decoded payload at the reachable
connected state (which has the live page's callback registered). -/
theorem onmessage_spec_witness :
    (onmessageHandler 7 (Except.ok ⟨some []⟩)
        (run initState [Event.connect, Event.sockOpen])).delivered
      = (run initState [Event.connect, Event.sockOpen]).delivered ++ [⟨some []⟩] :=
  (onmessage_spec.2.1 (run initState [Event.connect, Event.sockOpen]) 7
      ⟨some []⟩ (by decide)).1

/-! ## Claim C8: live rendering keeps the truthily-enabled cells -/

/-- Live-rendering state of a `LiveDataManager` (script.js:290-297). -/
structure LDState where
  currentCells : List Cell
  updateRateWindow : List Int
  deriving DecidableEq, Repr

/-- `handleLiveData` (script.js:354-383), restricted to the state it
mutates: discard a message without an array-typed `cells` field; otherwise
replace the current cell set with the cells whose `enabled` field is truthy
and push the arrival time onto the update-rate window. -/
def handleLiveData (t : Int) (data : LiveData) (s : LDState) : LDState :=
  match data.cells with
  | none => s
  | some cells =>
    { currentCells := cells.filter (fun c => truthy c.enabled),
      updateRateWindow := pushTimestamp s.updateRateWindow t }

/-- A live cell whose `enabled` field holds the literal text "false". -/
def cellEnabledFalseText : Cell := { enabled := JSVal.str "false" }

/-- C8 counterexample: a cell whose `enabled` flag is the literal text
"false" (a non-empty string, hence truthy) survives the filter and does
participate in live rendering, contradicting the claim that it does not. -/
theorem enabled_text_false_cex :
    truthy (JSVal.str "false") = true ∧
    (handleLiveData 0 ⟨some [cellEnabledFalseText]⟩ ⟨[], []⟩).currentCells
      = [cellEnabledFalseText] := by
  refine ⟨by decide, by decide⟩

/-- C8 amended: the replacement cell set contains exactly the cells whose
`enabled` field is truthy under JS truthiness — `false`, `0`, the empty
string, `null` and `undefined` are excluded, while the literal text "false"
is truthy and therefore participates. -/
theorem handleLiveData_filter_spec :
    (∀ (t : Int) (s : LDState) (cells : List Cell),
      (handleLiveData t ⟨some cells⟩ s).currentCells
        = cells.filter (fun c => truthy c.enabled)) ∧
    (∀ (t : Int) (s : LDState) (cells : List Cell) (c : Cell),
      c ∈ (handleLiveData t ⟨some cells⟩ s).currentCells ↔
        c ∈ cells ∧ truthy c.enabled = true) ∧
    truthy (JSVal.bool false) = false ∧ truthy (JSVal.num 0) = false ∧
    truthy (JSVal.str "") = false ∧ truthy JSVal.null = false ∧
    truthy JSVal.undef = false ∧ truthy (JSVal.str "false") = true := by
  refine ⟨?_, ?_, by decide, by decide, by decide, by decide, by decide, by decide⟩
  · intro t s cells
    rfl
  · intro t s cells c
    simp [handleLiveData, List.mem_filter]

end TDisplay
